import Mathlib

/-!
Shallow embedding of the physics-formula layer of the `fusion_plots`
repository, together with proofs settling the frozen claims C1-C10.

Conventions used throughout:
* Python/numpy floating-point numbers are modelled as real numbers (`ℝ`).
* A numpy `NaN` entry of an array is modelled as `none` in `Option ℝ`;
  a finite computed entry is `some v`.
* A Python function that can raise an exception (for instance an
  `UnboundLocalError` when a string-keyed coefficient dispatch falls
  through every branch) is modelled with result type `Option _`, where
  `none` marks the raised exception.
* numpy arrays are modelled as `List ℝ` (or `List (Option ℝ)` once NaN
  masking may have happened); 2-D meshgrid arrays as `List (List _)`.
* `np.amin(T) < lo or np.amax(T) > hi` on a (nonempty) array is expressed
  with the equivalent membership existentials.
-/

/-! ### fusion_reactivity.py -/

/-- scipy.constants.e (elementary charge, CODATA 2018). -/
def consts_e : ℝ := 1.602176634e-19

/-- scipy.constants.k / Boltzmann (CODATA 2018). -/
def consts_k : ℝ := 1.380649e-23

/-- scipy.constants.Avogadro (CODATA 2018). -/
def consts_Avogadro : ℝ := 6.02214076e23

/-- scipy.constants.epsilon_0 (vacuum permittivity, CODATA 2018). -/
def consts_epsilon0 : ℝ := 8.8541878128e-12

/-- scipy.constants.m_e (electron mass, CODATA 2018). -/
def consts_m_e : ℝ := 9.1093837015e-31

/-- scipy.constants.c (speed of light). -/
def consts_c : ℝ := 299792458

/-- scipy.constants.hbar (CODATA 2018). -/
def consts_hbar : ℝ := 1.054571817e-34

/-- fusion_reactivity.py, `reaction_int2str`: translate a reaction number
into the canonical reaction string; unknown keys yield the sentinel
string "NaN" (after printing a diagnostic, which is not modelled). -/
def reaction_int2str (reaction_int : ℤ) : String :=
  if reaction_int = 1 then "DT"
  else if reaction_int = 2 then "DD_a"
  else if reaction_int = 3 then "DD_b"
  else if reaction_int = 4 then "3HeD"
  else if reaction_int = 5 then "TT"
  else if reaction_int = 6 then "T3He"
  else if reaction_int = 7 then "3He3He"
  else if reaction_int = 8 then "p11B"
  else if reaction_int = 9 then "pp"
  else "NaN"

/-- Coefficient set a1..a6, r of one branch of the Hively S_5 fit
(`get_fusion_reactivity_Hively`, Tables I-IV of Hively NF 1977). -/
structure HivelyCoeffs where
  a1 : ℝ
  a2 : ℝ
  a3 : ℝ
  a4 : ℝ
  a5 : ℝ
  a6 : ℝ
  r : ℝ

/-- Coefficient dispatch of `get_fusion_reactivity_Hively` (the chain of
`if reaction_str == ...` branches); `none` when no branch assigns the
coefficients, in which case the source raises `UnboundLocalError`. -/
def hively_coeffs (reaction_str : String) : Option HivelyCoeffs :=
  if reaction_str = "DT" ∨ reaction_str = "TD" then
    some ⟨-21.377692, -25.204054, -7.1013427e-2, 1.9375451e-4, 4.9246592e-6, -3.9836572e-8, 0.2935⟩
  else if reaction_str = "DD_a" then
    some ⟨-15.511891, -35.318711, -1.2904737e-2, 2.6797766e-4, -2.9198685e-6, 1.2748415e-8, 0.3735⟩
  else if reaction_str = "DD_b" then
    some ⟨-15.993842, -35.017640, -1.3689787e-2, 2.7089621e-4, -2.9441547e-6, 1.2841202e-8, 0.3725⟩
  else if reaction_str = "3HeD" ∨ reaction_str = "D3He" then
    some ⟨-27.764468, -31.023898, 2.7809999e-2, -5.5321633e-4, 3.0293927e-6, -2.5233325e-9, 0.3597⟩
  else none

/-- Eq. (5) of Hively NF 1977 as coded:
`1e-6 * exp(a1/T**r + a2 + a3*T + a4*T**2 + a5*T**3 + a6*T**4)`. -/
noncomputable def hively_S5 (c : HivelyCoeffs) (T : ℝ) : ℝ :=
  1e-6 * Real.exp (c.a1 / T ^ c.r + c.a2 + c.a3 * T + c.a4 * T ^ 2 + c.a5 * T ^ 3 + c.a6 * T ^ 4)

/-- fusion_reactivity.py, `get_fusion_reactivity_Hively` on an array
argument. `none` models the `UnboundLocalError` raised when the reaction
tag has no coefficient set; inside a result list, `none` models a NaN
entry. The numpy scalar path (`np.size(T_ion) <= 1`, where the whole
result is replaced by a scalar NaN) is rendered as an all-NaN list. -/
noncomputable def get_fusion_reactivity_Hively
    (T_ion : List ℝ) (reaction : ℤ) (extrapolate : Bool) : Option (List (Option ℝ)) :=
  match hively_coeffs (reaction_int2str reaction) with
  | none => none
  | some c =>
      if (∃ t ∈ T_ion, t < 1) ∨ (∃ t ∈ T_ion, 80 < t) then
        if extrapolate then
          some (T_ion.map (fun t => some (hively_S5 c t)))
        else
          if 1 < T_ion.length then
            some (T_ion.map (fun t => if t < 1 ∨ 80 < t then none else some (hively_S5 c t)))
          else
            some (T_ion.map (fun _ => none))
      else
        some (T_ion.map (fun t => some (hively_S5 c t)))

/-- Coefficient set of one branch of the Bosch-Hale reactivity fit
(`get_fusion_reactivity_Bosch`). -/
structure BoschCoeffs where
  b_G : ℝ
  mr_c2 : ℝ
  c1 : ℝ
  c2 : ℝ
  c3 : ℝ
  c4 : ℝ
  c5 : ℝ
  c6 : ℝ
  c7 : ℝ

/-- Coefficient dispatch of `get_fusion_reactivity_Bosch`; in the DT
branch the source first sets `c7 = 1.36600e-5` and immediately
overwrites it with `0.0`, so the effective value is `0`. -/
def bosch_coeffs (reaction_str : String) : Option BoschCoeffs :=
  if reaction_str = "DT" ∨ reaction_str = "TD" then
    some ⟨34.3827, 1124656, 1.17302e-9, 1.51361e-2, 7.51886e-2, 4.60643e-3, 1.35000e-2, -1.06750e-4, 0⟩
  else if reaction_str = "DD_a" then
    some ⟨31.3970, 937814, 5.65718e-12, 3.41267e-3, 1.99167e-3, 0, 1.05060e-5, 0, 0⟩
  else if reaction_str = "DD_b" then
    some ⟨31.3970, 937814, 5.43360e-12, 5.85778e-3, 7.68222e-3, 0, -2.96400e-6, 0, 0⟩
  else if reaction_str = "3HeD" ∨ reaction_str = "D3He" then
    some ⟨68.7508, 1124572, 5.51036e-10, 6.41918e-3, -2.02896e-3, -1.91080e-5, 1.35776e-4, 0, 0⟩
  else none

/-- Eqs. (12)-(14) of Bosch-Hale NF 1992 as coded, including the final
`1e-6` scaling from cm^3/s to m^3/s. -/
noncomputable def bosch_sigma_v (c : BoschCoeffs) (T : ℝ) : ℝ :=
  let theta := T / (1 - T * (c.c2 + T * (c.c4 + T * c.c6)) / (1 + T * (c.c3 + T * (c.c5 + T * c.c7))))
  let chi := (c.b_G ^ 2 / (4 * theta)) ^ ((1 : ℝ) / 3)
  1e-6 * (c.c1 * theta * Real.sqrt (chi / (c.mr_c2 * T ^ 3)) * Real.exp (-3 * chi))

/-- fusion_reactivity.py, `get_fusion_reactivity_Bosch` on an array
argument; same structure and NaN/exception conventions as
`get_fusion_reactivity_Hively`, with valid range 0.2..100 keV. -/
noncomputable def get_fusion_reactivity_Bosch
    (T_ion : List ℝ) (reaction : ℤ) (extrapolate : Bool) : Option (List (Option ℝ)) :=
  match bosch_coeffs (reaction_int2str reaction) with
  | none => none
  | some c =>
      if (∃ t ∈ T_ion, t < 0.2) ∨ (∃ t ∈ T_ion, 100 < t) then
        if extrapolate then
          some (T_ion.map (fun t => some (bosch_sigma_v c t)))
        else
          if 1 < T_ion.length then
            some (T_ion.map (fun t => if t < 0.2 ∨ 100 < t then none else some (bosch_sigma_v c t)))
          else
            some (T_ion.map (fun _ => none))
      else
        some (T_ion.map (fun t => some (bosch_sigma_v c t)))

/-- Result of `get_fusion_reactivity_Angulo`: either the scalar `np.nan`
sentinel returned for an unsupported reaction, or an array of values
(with `none` for masked NaN entries). -/
inductive ReactivityResult where
  | nanScalar : ReactivityResult
  | values : List (Option ℝ) → ReactivityResult

/-- Angulo pp-chain reactivity formula as coded (temperatures converted
to units of 1e9 K internally, result scaled to m^3/s). -/
noncomputable def angulo_sigma_v (T : ℝ) : ℝ :=
  let eV2K := consts_e / consts_k
  let T9 := T * 1e3 * eV2K * 1e-9
  1e-6 * (1 / consts_Avogadro * (4.08e-15 * T9 ^ (-(2 : ℝ) / 3) * Real.exp (-3.381 * T9 ^ (-(1 : ℝ) / 3)) *
    (1 + 3.82 * T9 + 1.51 * T9 ^ 2 + 0.144 * T9 ^ 3 + -1.14e-2 * T9 ^ 4)))

/-- fusion_reactivity.py, `get_fusion_reactivity_Angulo`: for any
reaction other than pp it prints a diagnostic and returns the scalar
`np.nan` sentinel (no exception); for pp it evaluates the fit and then
applies the usual valid-range masking. -/
noncomputable def get_fusion_reactivity_Angulo
    (T_ion : List ℝ) (reaction : ℤ) (reaction_str_arg : String) (extrapolate : Bool) :
    ReactivityResult :=
  let reaction_str := if reaction_str_arg.length = 0 then reaction_int2str reaction else reaction_str_arg
  let eV2K := consts_e / consts_k
  let lo := 0.001 * 1e9 / eV2K * 1e-3
  let hi := 10 * 1e9 / eV2K * 1e-3
  if reaction_str = "pp" then
    if (∃ t ∈ T_ion, t < lo) ∨ (∃ t ∈ T_ion, hi < t) then
      if extrapolate then
        ReactivityResult.values (T_ion.map (fun t => some (angulo_sigma_v t)))
      else
        if 1 < T_ion.length then
          ReactivityResult.values (T_ion.map (fun t => if t < lo ∨ hi < t then none else some (angulo_sigma_v t)))
        else
          ReactivityResult.values (T_ion.map (fun _ => none))
    else
      ReactivityResult.values (T_ion.map (fun t => some (angulo_sigma_v t)))
  else
    ReactivityResult.nanScalar

/-! ### fusion_cross_sections.py -/

/-- NaN-propagating elementwise addition of two possibly-masked array
entries, as numpy addition behaves on NaN. -/
def nan_add (a b : Option ℝ) : Option ℝ :=
  match a, b with
  | some x, some y => some (x + y)
  | _, _ => none

/-- Coefficient set of one reaction branch of
`cross_section_Bosch` in fusion_cross_sections.py: valid energy range,
Gamow constant and the two Padé coefficient rows A and B. -/
structure BoschCSCoeffs where
  lo : ℝ
  hi : ℝ
  b_G : ℝ
  A0 : ℝ
  A1 : ℝ
  A2 : ℝ
  A3 : ℝ
  A4 : ℝ
  B0 : ℝ
  B1 : ℝ
  B2 : ℝ
  B3 : ℝ

/-- Coefficient dispatch of `cross_section_Bosch` for the non-'DD'
branches; `none` when no branch assigns the locals (the source then
raises `UnboundLocalError` when evaluating the formula). -/
def cross_section_Bosch_coeffs (reaction : String) : Option BoschCSCoeffs :=
  if reaction = "DT" ∨ reaction = "TD" then
    some ⟨0.5, 550, 34.3827, 6.927e4, 7.454e8, 2.050e6, 5.2002e4, 0, 6.38e1, -9.95e-1, 6.981e-5, 1.728e-4⟩
  else if reaction = "He3D" ∨ reaction = "DHe3" then
    some ⟨0.3, 900, 68.7508, 5.7501e6, 2.5226e3, 4.5566e1, 0, 0, -3.1995e-3, -8.5530e-6, 5.9014e-8, 0⟩
  else if reaction = "DD_a" then
    some ⟨0.5, 5000, 31.3970, 5.5576e4, 2.1054e2, -3.2638e-2, 1.4987e-6, 1.8181e-10, 0, 0, 0, 0⟩
  else if reaction = "DD_b" then
    some ⟨0.5, 4900, 31.3970, 5.3701e4, 3.3027e2, -1.2706e-1, 2.9327e-5, -2.5151e-9, 0, 0, 0, 0⟩
  else none

/-- Padé polynomial `S_func` of `cross_section_Bosch` (note the Python
precedence: only the numerator polynomial is divided by the denominator
polynomial, then added to A0). -/
noncomputable def bosch_cs_S (c : BoschCSCoeffs) (T : ℝ) : ℝ :=
  c.A0 + T * (c.A1 + T * (c.A2 + T * (c.A3 + T * c.A4))) /
    (1 + T * (c.B0 + T * (c.B1 + T * (c.B2 + T * c.B3))))

/-- Cross-section value in mbarn of one element, before range masking:
`S_func(T) / (T*exp(B_G/sqrt(T)))`. -/
noncomputable def bosch_cs_sigma (c : BoschCSCoeffs) (T : ℝ) : ℝ :=
  bosch_cs_S c T / (T * Real.exp (c.b_G / Real.sqrt T))

/-- Body of `cross_section_Bosch` for every reaction other than 'DD':
coefficient dispatch, Padé evaluation, NaN masking outside the valid
energy range, and the final `*1e-3` mbarn-to-barn scaling. -/
noncomputable def cross_section_Bosch_base (T_ion : List ℝ) (reaction : String) :
    Option (List (Option ℝ)) :=
  match cross_section_Bosch_coeffs reaction with
  | none => none
  | some c =>
      some (T_ion.map (fun T => if T < c.lo ∨ c.hi < T then none else some (bosch_cs_sigma c T * 1e-3)))

/-- fusion_cross_sections.py, `cross_section_Bosch`, with the 'DD'
branch unrolled once: that branch recursively invokes the function with
the tags 'DT_a' and 'DT_b', which match no coefficient branch of the
source, so both recursive calls raise (`none` here). -/
noncomputable def cross_section_Bosch (T_ion : List ℝ) (reaction : String) :
    Option (List (Option ℝ)) :=
  if reaction = "DD" then
    match cross_section_Bosch_base T_ion "DT_a", cross_section_Bosch_base T_ion "DT_b" with
    | some sigma_T_a, some sigma_T_b => some (List.zipWith nan_add sigma_T_a sigma_T_b)
    | _, _ => none
  else cross_section_Bosch_base T_ion reaction

/-- Modelled from the claim (specification side of C1): the documented
composition rule for the total D-D cross-section, namely the elementwise
sum of the DD_a and DD_b branch results of the same Bosch fit family. -/
noncomputable def spec_cross_section_Bosch_DD (T_ion : List ℝ) : Option (List (Option ℝ)) :=
  match cross_section_Bosch_base T_ion "DD_a", cross_section_Bosch_base T_ion "DD_b" with
  | some sigma_T_a, some sigma_T_b => some (List.zipWith nan_add sigma_T_a sigma_T_b)
  | _, _ => none

/-- NRL cross-section coefficient table of `cross_section_NRL`. -/
def cross_section_NRL_coeffs (reaction : String) : Option (List ℝ) :=
  if reaction = "DD_a" then some [46.097, 372, 4.36e-4, 1.220, 0]
  else if reaction = "DD_b" then some [47.88, 482, 3.08e-4, 1.177, 0]
  else if reaction = "DT" then some [45.95, 50200, 1.368e-2, 1.076, 409]
  else if reaction = "DHe3" then some [89.27, 25900, 3.98e-3, 1.297, 647]
  else if reaction = "TT" then some [38.39, 448, 1.02e-3, 2.09, 0]
  else if reaction = "THe3" then some [123.1, 11250, 0, 0, 0]
  else none

/-- NRL formulary cross-section in barns, one element:
`(A4 + ((A3 - A2*E)**2 + 1)**(-1) * A1) / (E*(exp(A0/sqrt(E)) - 1))`. -/
noncomputable def nrl_sigma (A0 A1 A2 A3 A4 E : ℝ) : ℝ :=
  (A4 + ((A3 - A2 * E) ^ 2 + 1)⁻¹ * A1) / (E * (Real.exp (A0 / Real.sqrt E) - 1))

/-- fusion_cross_sections.py, `cross_section_NRL` on an array; `none`
models the KeyError raised on an unknown reaction key. -/
noncomputable def cross_section_NRL (E : List ℝ) (reaction : String) : Option (List ℝ) :=
  match cross_section_NRL_coeffs reaction with
  | some A => some (E.map (nrl_sigma (A.headD 0) (A.getD 1 0) (A.getD 2 0) (A.getD 3 0) (A.getD 4 0)))
  | none => none

/-! ### plasma_zoo.py -/

/-- plasma_zoo.py, `calc_debye`: Debye length in meters; with
`unit='eV'` the temperature is first converted from eV to Kelvin via
`T *= e/k`. -/
noncomputable def calc_debye (n T : ℝ) (unit : String) : ℝ :=
  let T_K := if unit = "eV" then T * (consts_e / consts_k) else T
  Real.sqrt (consts_epsilon0 * consts_k * T_K / (consts_e ^ 2 * n))

/-- plasma_zoo.py, `calc_ND`: plasma parameter
`n * 4./3. * np.pi * lambda_D**3` with `lambda_D = calc_debye(n,T,unit)`. -/
noncomputable def calc_ND (n T : ℝ) (unit : String) : ℝ :=
  let lambda_D := calc_debye n T unit
  n * 4 / 3 * Real.pi * lambda_D ^ 3

/-- plasma_zoo.py, `calc_Trel`: relativistic threshold temperature
`m_e*c**2/e` in eV. -/
noncomputable def calc_Trel : ℝ :=
  consts_m_e * consts_c ^ 2 / consts_e

/-- plasma_zoo.py, `calc_Tdeg`: degeneracy threshold temperature
`hbar**2/(2*m_e) * (3*pi**2*n)**(2/3) / e` in eV. -/
noncomputable def calc_Tdeg (plasma_density : ℝ) : ℝ :=
  consts_hbar ^ 2 / (2 * consts_m_e) * (3 * Real.pi ^ 2 * plasma_density) ^ ((2 : ℝ) / 3) / consts_e

/-- plasma_zoo.py, `calc_Tnonideal`: strong-coupling threshold
temperature `e**2/(4*pi*epsilon_0) * n**(1/3) / e` in eV. -/
noncomputable def calc_Tnonideal (plasma_density : ℝ) : ℝ :=
  consts_e ^ 2 / (4 * Real.pi * consts_epsilon0) * plasma_density ^ ((1 : ℝ) / 3) / consts_e

/-- The Debye-length grid built by `make_lambda_D_contours`
(rows indexed by T_vals, columns by n_vals) after the three masking
assignments: a grid point is NaN (`none`) when `T >= calc_Trel` or
`T <= calc_Tdeg(n)` or `T <= calc_Tnonideal(n)`, and keeps
`calc_debye(n, T)` otherwise. -/
noncomputable def make_lambda_D_grid (T_vals n_vals : List ℝ) : List (List (Option ℝ)) :=
  T_vals.map (fun T => n_vals.map (fun n =>
    if calc_Trel ≤ T ∨ T ≤ calc_Tdeg n ∨ T ≤ calc_Tnonideal n then none
    else some (calc_debye n T "eV")))

/-- The plasma-parameter grid built by `make_N_D_contours`, masked by
the same three conditions as `make_lambda_D_grid`. -/
noncomputable def make_N_D_grid (T_vals n_vals : List ℝ) : List (List (Option ℝ)) :=
  T_vals.map (fun T => n_vals.map (fun n =>
    if calc_Trel ≤ T ∨ T ≤ calc_Tdeg n ∨ T ≤ calc_Tnonideal n then none
    else some (calc_ND n T "eV")))

/-! ### plot_binding_energy.py -/

/-- numpy `np.around` to zero decimals: round to the nearest integer,
with exact halves rounded to the nearest even integer. -/
noncomputable def np_around (x : ℝ) : ℤ :=
  if Int.fract x = 1 / 2 then (if 2 ∣ ⌊x⌋ then ⌊x⌋ else ⌊x⌋ + 1) else round x

/-- The NIST dataset dictionary restricted to the two numeric columns
the downstream computation reads ('Atomic Number' and
'Relative Atomic Mass'). -/
structure NISTDataset where
  atomic_number : List ℝ
  relative_atomic_mass : List ℝ

/-- plot_binding_energy.py, `read_NIST_data` on the url path. The HTTP
response is abstracted to its status code and its already-lexed
key/value lines (the textual `float(...)` lexing of each line is not
modelled). On a status other than 200 the source prints a diagnostic
and returns the integer -1 instead of a dataset. -/
def read_NIST_data (status : ℕ) (body : List (String × ℝ)) : ℤ ⊕ NISTDataset :=
  if status ≠ 200 then Sum.inl (-1)
  else Sum.inr
    { atomic_number := (body.filter (fun kv => kv.1 = "Atomic Number")).map (fun kv => kv.2),
      relative_atomic_mass := (body.filter (fun kv => kv.1 = "Relative Atomic Mass")).map (fun kv => kv.2) }

/-- Mass numbers `np.around(atomic_mass)` of a well-formed dataset. -/
noncomputable def get_mass_number_ds (ds : NISTDataset) : List ℝ :=
  ds.relative_atomic_mass.map (fun m => ((np_around m : ℤ) : ℝ))

/-- plot_binding_energy.py, `get_mass_number`, applied to whatever
`read_NIST_data` returned: subscripting the integer -1 failure value
raises a TypeError, modelled as `none`. -/
noncomputable def get_mass_number (d : ℤ ⊕ NISTDataset) : Option (List ℝ) :=
  match d with
  | Sum.inl _ => none
  | Sum.inr ds => some (get_mass_number_ds ds)

/-- plot_binding_energy.py, `get_binding_energy`: elementwise
`Dm = ((N*m_n + Z*m_p + Z*m_e) - M)*amu` with `N = A - Z`,
`A = np.around(M)`, returning `Dm/A` when `norm` is set; applied to the
-1 failure value it raises a TypeError (`none`). -/
noncomputable def get_binding_energy (d : ℤ ⊕ NISTDataset) (norm : Bool) : Option (List ℝ) :=
  match d with
  | Sum.inl _ => none
  | Sum.inr ds =>
      let amu : ℝ := 931.494095
      let neutron_u : ℝ := 1.00866491588
      let proton_u : ℝ := 1.00727646688
      let electron_u : ℝ := 0.00054858
      some (List.zipWith (fun M Z =>
        let A : ℝ := ((np_around M : ℤ) : ℝ)
        let mass_defect := ((A - Z) * neutron_u + Z * proton_u + Z * electron_u - M) * amu
        if norm then mass_defect / A else mass_defect)
        ds.relative_atomic_mass ds.atomic_number)

/-- plot_binding_energy.py, `main` (computation part): fetch the NIST
data and unconditionally hand the result to `get_mass_number` and
`get_binding_energy`; `none` marks the uncaught TypeError when the
fetch failed. -/
noncomputable def binding_energy_main (status : ℕ) (body : List (String × ℝ)) :
    Option (List ℝ × List ℝ) :=
  let NIST_dataset := read_NIST_data status body
  match get_mass_number NIST_dataset, get_binding_energy NIST_dataset true with
  | some mass_number, some bind_energy_norm => some (mass_number, bind_energy_norm)
  | _, _ => none

/-! ### CMA_diagram.py -/

/-- numpy `np.linspace(a, b, num)`. -/
noncomputable def np_linspace (a b : ℝ) (num : ℕ) : List ℝ :=
  (List.range num).map (fun i : ℕ => a + (b - a) * (i : ℝ) / ((num : ℝ) - 1))

/-- The right-hand cut-off curve function of `oplot_XRcut`:
`arr_y = 1. - arr_x`. -/
def oplot_XRcut_y (x : ℝ) : ℝ := 1 - x

/-- The sampled right-hand cut-off curve of `oplot_XRcut` (the source
samples `arr_x` with 200 points over the axis range). -/
noncomputable def oplot_XRcut_curve (x0 x1 : ℝ) : List (ℝ × ℝ) :=
  (np_linspace (min x0 x1) (max x0 x1) 200).map (fun x => (x, 1 - x))

/-- The left-hand cut-off curve function of `oplot_XLcut`:
`arr_y = -1. + arr_x`. -/
def oplot_XLcut_y (x : ℝ) : ℝ := -1 + x

/-- The sampled left-hand cut-off curve of `oplot_XLcut`:
`arr_x = np.linspace(1., np.max(x_range), 200)`, `arr_y = -1. + arr_x`. -/
noncomputable def oplot_XLcut_curve (x0 x1 : ℝ) : List (ℝ × ℝ) :=
  (np_linspace 1 (max x0 x1) 200).map (fun x => (x, -1 + x))

/-! ### plot_fieldline.py -/

/-- One sample of the field-line helix of `toroidal_helix`, with
poloidal angle advancing as `n*phi` where `n = 1/q`. -/
noncomputable def toroidal_helix_point (R0 a q phi : ℝ) : ℝ × ℝ × ℝ :=
  let n := 1 / q
  ((R0 - a * Real.cos (n * phi)) * Real.cos phi,
   (R0 - a * Real.cos (n * phi)) * Real.sin phi,
   a * Real.sin (n * phi))

/-- plot_fieldline.py, `toroidal_helix` over an array of toroidal
angles. -/
noncomputable def toroidal_helix (R0 a : ℝ) (phi : List ℝ) (q : ℝ) : List (ℝ × ℝ × ℝ) :=
  phi.map (toroidal_helix_point R0 a q)

/-- One sample of the torus surface of `make_torus_coordinates`. -/
noncomputable def torus_point (R0 a theta phi : ℝ) : ℝ × ℝ × ℝ :=
  ((R0 + a * Real.cos theta) * Real.cos phi,
   (R0 + a * Real.cos theta) * Real.sin phi,
   a * Real.sin theta)

/-- plot_fieldline.py, `make_torus_coordinates` over the meshgrid of
poloidal and toroidal angle samples (rows indexed by phi, matching
`np.meshgrid(theta, phi)`). -/
noncomputable def make_torus_coordinates (R0 a : ℝ) (theta phi : List ℝ) :
    List (List (ℝ × ℝ × ℝ)) :=
  phi.map (fun p => theta.map (fun t => torus_point R0 a t p))

/-- Membership in the torus surface of major radius R0 and minor
radius a: `(sqrt(x^2 + y^2) - R0)^2 + z^2 = a^2`. -/
noncomputable def on_torus_surface (R0 a : ℝ) (p : ℝ × ℝ × ℝ) : Prop :=
  (Real.sqrt (p.1 ^ 2 + p.2.1 ^ 2) - R0) ^ 2 + p.2.2 ^ 2 = a ^ 2

/-! ### Helper lemmas -/

/-- A list holding two distinct values has at least two elements. -/
theorem one_lt_length_of_mem_ne {α : Type} {a b : α} {l : List α}
    (ha : a ∈ l) (hb : b ∈ l) (hab : a ≠ b) : 1 < l.length := by
  cases l with
  | nil => simp at ha
  | cons x xs =>
    cases xs with
    | nil =>
      simp only [List.mem_singleton] at ha hb
      exact absurd (ha.trans hb.symm) hab
    | cons y ys =>
      simp only [List.length_cons]
      omega

/-- `np_around` rounds to a nearest integer: no integer is strictly
closer to `x` than `np_around x`. -/
theorem np_around_nearest (x : ℝ) (z : ℤ) :
    |x - ((np_around x : ℤ) : ℝ)| ≤ |x - (z : ℝ)| := by
  unfold np_around
  by_cases h : Int.fract x = 1 / 2
  · have hx : x - (⌊x⌋ : ℝ) = 1 / 2 := by
      have hf : Int.fract x = x - (⌊x⌋ : ℝ) := rfl
      rw [hf] at h
      exact h
    have hz : (1 : ℝ) / 2 ≤ |x - (z : ℝ)| := by
      rcases le_or_lt z ⌊x⌋ with hle | hlt
      · have hzr : (z : ℝ) ≤ (⌊x⌋ : ℝ) := by exact_mod_cast hle
        rw [abs_of_nonneg (by linarith)]
        linarith
      · have hzr : (⌊x⌋ : ℝ) + 1 ≤ (z : ℝ) := by exact_mod_cast hlt
        rw [abs_of_nonpos (by linarith)]
        linarith
    rw [if_pos h]
    by_cases he : 2 ∣ ⌊x⌋
    · rw [if_pos he, abs_of_nonneg (by linarith)]
      linarith
    · rw [if_neg he]
      push_cast
      rw [abs_of_nonpos (by linarith)]
      linarith
  · rw [if_neg h]
    exact round_le x z

/-- Any point at distance `R0 + a*u` from the axis at height `a*v`,
with `u^2 + v^2 = 1` and `R0 + a*u` nonnegative, lies on the torus of
major radius R0 and minor radius a. -/
theorem on_torus_of_eq (R0 a u v beta x y z : ℝ) (huv : u ^ 2 + v ^ 2 = 1)
    (hpos : 0 ≤ R0 + a * u)
    (hx : x = (R0 + a * u) * Real.cos beta)
    (hy : y = (R0 + a * u) * Real.sin beta)
    (hz : z = a * v) :
    on_torus_surface R0 a (x, y, z) := by
  subst hx hy hz
  unfold on_torus_surface
  simp only [Prod.fst, Prod.snd]
  have hxy : ((R0 + a * u) * Real.cos beta) ^ 2 + ((R0 + a * u) * Real.sin beta) ^ 2
      = (R0 + a * u) ^ 2 := by
    have hcs := Real.cos_sq_add_sin_sq beta
    nlinarith [hcs]
  have hsq : (a * u) ^ 2 + (a * v) ^ 2 = a ^ 2 := by nlinarith [huv]
  rw [hxy, Real.sqrt_sq hpos]
  nlinarith [hsq]

/-! ### C5 -/

/-- C5: `calc_ND(n, T)` equals `n * (4/3) * pi * calc_debye(n, T)^3`
exactly; the plasma parameter is the documented algebraic composition
of the Debye-length function. -/
theorem calc_ND_is_debye_composition (n T : ℝ) (unit : String) :
    calc_ND n T unit = n * (4 / 3) * Real.pi * calc_debye n T unit ^ 3 := by
  unfold calc_ND
  ring

/-! ### C4 -/

/-- C4: on a non-200 HTTP status, `read_NIST_data` does return the
explicit failure value -1 (no exception), but `main` never checks that
indication: it hands the -1 to `get_mass_number`/`get_binding_energy`,
whose subscripting of the integer raises a TypeError (`none` here), so
the caller does proceed onto the failure value instead of treating it
as "no computation possible". -/
theorem read_NIST_failure_ignored_by_main (body : List (String × ℝ)) :
    read_NIST_data 404 body = Sum.inl (-1) ∧ binding_energy_main 404 body = none := by
  constructor
  · simp [read_NIST_data]
  · simp [binding_energy_main, read_NIST_data, get_mass_number]

/-! ### C1 -/

/-- C1: `cross_section_Bosch(T, 'DD')` does not return the DD_a + DD_b
branch sum: its 'DD' branch recurses with the tags 'DT_a' and 'DT_b',
which match no coefficient branch, so the call raises (`none`), while
the documented composition (`spec_cross_section_Bosch_DD`) is a proper
value at 10 keV. -/
theorem cross_section_Bosch_DD_bug :
    cross_section_Bosch [(10 : ℝ)] "DD" = none ∧
    spec_cross_section_Bosch_DD [(10 : ℝ)] =
      some [some (bosch_cs_sigma ⟨0.5, 5000, 31.3970, 5.5576e4, 2.1054e2, -3.2638e-2, 1.4987e-6, 1.8181e-10, 0, 0, 0, 0⟩ 10 * 1e-3 +
        bosch_cs_sigma ⟨0.5, 4900, 31.3970, 5.3701e4, 3.3027e2, -1.2706e-1, 2.9327e-5, -2.5151e-9, 0, 0, 0, 0⟩ 10 * 1e-3)] := by
  constructor
  · simp [cross_section_Bosch, cross_section_Bosch_base, cross_section_Bosch_coeffs]
  · simp [spec_cross_section_Bosch_DD, cross_section_Bosch_base, cross_section_Bosch_coeffs]
    norm_num [nan_add]

/-! ### C2 -/

/-- C2 counterexample: `get_fusion_reactivity_Hively` called with
reaction 5 ('TT', a tag with no coefficient set) does not return any
value at all - the coefficient dispatch falls through every branch and
the source raises `UnboundLocalError` - contradicting the claim that
every reactivity function returns a NaN-like sentinel there. -/
theorem hively_unknown_tag_raises :
    get_fusion_reactivity_Hively [(10 : ℝ)] 5 true = none := by
  simp [get_fusion_reactivity_Hively, reaction_int2str, hively_coeffs]

/-- C2 amended: `reaction_int2str` returns the sentinel string "NaN"
for every integer outside 1..9 without raising, and
`get_fusion_reactivity_Angulo` returns the scalar NaN sentinel for the
unsupported reaction 5; but `get_fusion_reactivity_Hively` and
`get_fusion_reactivity_Bosch` raise an `UnboundLocalError` (modelled as
`none`) for reaction 5 ('TT') instead of returning a sentinel. -/
theorem reaction_sentinel_amended :
    (∀ reaction_int : ℤ, ¬(1 ≤ reaction_int ∧ reaction_int ≤ 9) →
       reaction_int2str reaction_int = "NaN") ∧
    (∀ (T_ion : List ℝ) (extrapolate : Bool),
       get_fusion_reactivity_Angulo T_ion 5 "" extrapolate = ReactivityResult.nanScalar) ∧
    (∀ (T_ion : List ℝ) (extrapolate : Bool),
       get_fusion_reactivity_Hively T_ion 5 extrapolate = none) ∧
    (∀ (T_ion : List ℝ) (extrapolate : Bool),
       get_fusion_reactivity_Bosch T_ion 5 extrapolate = none) := by
  refine ⟨?_, ?_, ?_, ?_⟩
  · intro k hk
    have h1 : k ≠ 1 := by omega
    have h2 : k ≠ 2 := by omega
    have h3 : k ≠ 3 := by omega
    have h4 : k ≠ 4 := by omega
    have h5 : k ≠ 5 := by omega
    have h6 : k ≠ 6 := by omega
    have h7 : k ≠ 7 := by omega
    have h8 : k ≠ 8 := by omega
    have h9 : k ≠ 9 := by omega
    simp [reaction_int2str, h1, h2, h3, h4, h5, h6, h7, h8, h9]
  · intro T_ion extrapolate
    simp [get_fusion_reactivity_Angulo, reaction_int2str]
  · intro T_ion extrapolate
    simp [get_fusion_reactivity_Hively, reaction_int2str, hively_coeffs]
  · intro T_ion extrapolate
    simp [get_fusion_reactivity_Bosch, reaction_int2str, bosch_coeffs]

/-- Witness for the amended C2 statement at the concrete inputs 42 and
reaction 5. -/
theorem reaction_sentinel_amended_witness :
    reaction_int2str 42 = "NaN" ∧ get_fusion_reactivity_Hively [(10 : ℝ)] 5 true = none :=
  ⟨reaction_sentinel_amended.1 42 (by omega), reaction_sentinel_amended.2.2.1 [(10 : ℝ)] true⟩

/-! ### C8 -/

/-- C8: with temperatures in eV (converted internally to Kelvin),
`calc_debye` is strictly decreasing in the density for fixed positive
temperature, strictly increasing in the temperature for fixed positive
density, and computes `sqrt(epsilon_0*k*T_K/(e^2*n))`. -/
theorem calc_debye_monotone :
    (∀ T n1 n2 : ℝ, 0 < T → 0 < n1 → n1 < n2 →
       calc_debye n2 T "eV" < calc_debye n1 T "eV") ∧
    (∀ n T1 T2 : ℝ, 0 < n → 0 < T1 → T1 < T2 →
       calc_debye n T1 "eV" < calc_debye n T2 "eV") ∧
    (∀ n T : ℝ, calc_debye n T "eV" =
       Real.sqrt (consts_epsilon0 * consts_k * (T * (consts_e / consts_k)) / (consts_e ^ 2 * n))) := by
  have he : (0 : ℝ) < consts_e := by norm_num [consts_e]
  have hk : (0 : ℝ) < consts_k := by norm_num [consts_k]
  have heps : (0 : ℝ) < consts_epsilon0 := by norm_num [consts_epsilon0]
  have hform : ∀ n T : ℝ, calc_debye n T "eV" =
      Real.sqrt (consts_epsilon0 * consts_k * (T * (consts_e / consts_k)) / (consts_e ^ 2 * n)) := by
    intro n T
    unfold calc_debye
    norm_num
  refine ⟨?_, ?_, hform⟩
  · intro T n1 n2 hT hn1 hn12
    have hn2 : 0 < n2 := hn1.trans hn12
    rw [hform, hform]
    apply Real.sqrt_lt_sqrt
    · positivity
    · apply div_lt_div_of_pos_left
      · positivity
      · positivity
      · have : (0 : ℝ) < consts_e ^ 2 := by positivity
        exact mul_lt_mul_of_pos_left hn12 this
  · intro n T1 T2 hn hT1 hT12
    rw [hform, hform]
    apply Real.sqrt_lt_sqrt
    · positivity
    · have hnum : consts_epsilon0 * consts_k * (T1 * (consts_e / consts_k)) <
        consts_epsilon0 * consts_k * (T2 * (consts_e / consts_k)) := by
        apply mul_lt_mul_of_pos_left _ (by positivity)
        apply mul_lt_mul_of_pos_right hT12 (by positivity)
      exact (div_lt_div_iff_of_pos_right (by positivity)).mpr hnum

/-- Witness for C8 at the concrete densities 1, 2 and temperatures
1, 2. -/
theorem calc_debye_monotone_witness :
    calc_debye 2 1 "eV" < calc_debye 1 1 "eV" ∧ calc_debye 1 1 "eV" < calc_debye 1 2 "eV" :=
  ⟨calc_debye_monotone.1 1 1 2 (by norm_num) (by norm_num) (by norm_num),
   calc_debye_monotone.2.1 1 1 2 (by norm_num) (by norm_num) (by norm_num)⟩

/-! ### C3 -/

/-- Unfolding of `get_fusion_reactivity_Hively` with `extrapolate=False`
once the coefficient dispatch succeeds. -/
theorem hively_of_coeffs (T_ion : List ℝ) (reaction : ℤ) (c : HivelyCoeffs)
    (hc : hively_coeffs (reaction_int2str reaction) = some c) :
    get_fusion_reactivity_Hively T_ion reaction false =
      if (∃ t ∈ T_ion, t < 1) ∨ (∃ t ∈ T_ion, 80 < t) then
        (if 1 < T_ion.length then
          some (T_ion.map (fun t => if t < 1 ∨ 80 < t then none else some (hively_S5 c t)))
        else some (T_ion.map (fun _ => none)))
      else some (T_ion.map (fun t => some (hively_S5 c t))) := by
  unfold get_fusion_reactivity_Hively
  rw [hc]
  rfl

/-- Unfolding of `get_fusion_reactivity_Bosch` with `extrapolate=False`
once the coefficient dispatch succeeds. -/
theorem bosch_of_coeffs (T_ion : List ℝ) (reaction : ℤ) (c : BoschCoeffs)
    (hc : bosch_coeffs (reaction_int2str reaction) = some c) :
    get_fusion_reactivity_Bosch T_ion reaction false =
      if (∃ t ∈ T_ion, t < 0.2) ∨ (∃ t ∈ T_ion, 100 < t) then
        (if 1 < T_ion.length then
          some (T_ion.map (fun t => if t < 0.2 ∨ 100 < t then none else some (bosch_sigma_v c t)))
        else some (T_ion.map (fun _ => none)))
      else some (T_ion.map (fun t => some (bosch_sigma_v c t))) := by
  unfold get_fusion_reactivity_Bosch
  rw [hc]
  rfl

/-- C3: on an input array holding both in-range and out-of-range
temperatures, the Hively fit (valid range 1..80 keV) and the Bosch-Hale
fit (valid range 0.2..100 keV) called with `extrapolate=False` mask
exactly the out-of-range elements of the result to NaN, while every
in-range element keeps its computed fit value. -/
theorem reactivity_elementwise_masking :
    (∀ (T_ion : List ℝ) (reaction : ℤ) (c : HivelyCoeffs),
       hively_coeffs (reaction_int2str reaction) = some c →
       (∃ t ∈ T_ion, t < 1 ∨ 80 < t) →
       (∃ t ∈ T_ion, 1 ≤ t ∧ t ≤ 80) →
       ∃ res, get_fusion_reactivity_Hively T_ion reaction false = some res ∧
         res.length = T_ion.length ∧
         ∀ (i : ℕ) (hi : i < T_ion.length),
           ((T_ion[i] < 1 ∨ 80 < T_ion[i]) → res[i]? = some none) ∧
           (1 ≤ T_ion[i] ∧ T_ion[i] ≤ 80 →
              res[i]? = some (some (hively_S5 c T_ion[i])))) ∧
    (∀ (T_ion : List ℝ) (reaction : ℤ) (c : BoschCoeffs),
       bosch_coeffs (reaction_int2str reaction) = some c →
       (∃ t ∈ T_ion, t < 0.2 ∨ 100 < t) →
       (∃ t ∈ T_ion, 0.2 ≤ t ∧ t ≤ 100) →
       ∃ res, get_fusion_reactivity_Bosch T_ion reaction false = some res ∧
         res.length = T_ion.length ∧
         ∀ (i : ℕ) (hi : i < T_ion.length),
           ((T_ion[i] < 0.2 ∨ 100 < T_ion[i]) → res[i]? = some none) ∧
           (0.2 ≤ T_ion[i] ∧ T_ion[i] ≤ 100 →
              res[i]? = some (some (bosch_sigma_v c T_ion[i])))) := by
  constructor
  · intro T_ion reaction c hc hout hin
    obtain ⟨a, haT, haP⟩ := hout
    obtain ⟨b, hbT, hbP⟩ := hin
    have hab : a ≠ b := by
      rintro rfl
      rcases haP with h | h
      · linarith [hbP.1]
      · linarith [hbP.2]
    have hlen : 1 < T_ion.length := one_lt_length_of_mem_ne haT hbT hab
    have hcond : (∃ t ∈ T_ion, t < 1) ∨ (∃ t ∈ T_ion, 80 < t) := by
      rcases haP with h | h
      · exact Or.inl ⟨a, haT, h⟩
      · exact Or.inr ⟨a, haT, h⟩
    refine ⟨T_ion.map (fun t => if t < 1 ∨ 80 < t then none else some (hively_S5 c t)), ?_, ?_, ?_⟩
    · rw [hively_of_coeffs T_ion reaction c hc, if_pos hcond, if_pos hlen]
    · simp
    · intro i hi
      constructor
      · intro hout_i
        rw [List.getElem?_map, List.getElem?_eq_getElem hi]
        simp [hout_i]
      · intro hin_i
        have hno : ¬(T_ion[i] < 1 ∨ 80 < T_ion[i]) := by
          push_neg
          exact hin_i
        rw [List.getElem?_map, List.getElem?_eq_getElem hi]
        simp [hno]
  · intro T_ion reaction c hc hout hin
    obtain ⟨a, haT, haP⟩ := hout
    obtain ⟨b, hbT, hbP⟩ := hin
    have hab : a ≠ b := by
      rintro rfl
      rcases haP with h | h
      · linarith [hbP.1]
      · linarith [hbP.2]
    have hlen : 1 < T_ion.length := one_lt_length_of_mem_ne haT hbT hab
    have hcond : (∃ t ∈ T_ion, t < 0.2) ∨ (∃ t ∈ T_ion, 100 < t) := by
      rcases haP with h | h
      · exact Or.inl ⟨a, haT, h⟩
      · exact Or.inr ⟨a, haT, h⟩
    refine ⟨T_ion.map (fun t => if t < 0.2 ∨ 100 < t then none else some (bosch_sigma_v c t)), ?_, ?_, ?_⟩
    · rw [bosch_of_coeffs T_ion reaction c hc, if_pos hcond, if_pos hlen]
    · simp
    · intro i hi
      constructor
      · intro hout_i
        rw [List.getElem?_map, List.getElem?_eq_getElem hi]
        simp [hout_i]
      · intro hin_i
        have hno : ¬(T_ion[i] < 0.2 ∨ 100 < T_ion[i]) := by
          push_neg
          exact hin_i
        rw [List.getElem?_map, List.getElem?_eq_getElem hi]
        simp [hno]

/-- Witness for C3 on the mixed arrays [0.5, 10, 100] (Hively, DT) and
[0.1, 10, 200] (Bosch, DT): the out-of-range entries are masked, the
in-range entry keeps its computed value. -/
theorem reactivity_elementwise_masking_witness :
    (∃ res, get_fusion_reactivity_Hively [(1 : ℝ) / 2, 10, 100] 1 false = some res ∧
       res[0]? = some none ∧
       res[1]? = some (some (hively_S5 ⟨-21.377692, -25.204054, -7.1013427e-2, 1.9375451e-4, 4.9246592e-6, -3.9836572e-8, 0.2935⟩ 10)) ∧
       res[2]? = some none) ∧
    (∃ res, get_fusion_reactivity_Bosch [(1 : ℝ) / 10, 10, 200] 1 false = some res ∧
       res[0]? = some none ∧
       res[1]? = some (some (bosch_sigma_v ⟨34.3827, 1124656, 1.17302e-9, 1.51361e-2, 7.51886e-2, 4.60643e-3, 1.35000e-2, -1.06750e-4, 0⟩ 10)) ∧
       res[2]? = some none) := by
  constructor
  · obtain ⟨res, hres, hlen, hpt⟩ := reactivity_elementwise_masking.1 [(1 : ℝ) / 2, 10, 100] 1
      ⟨-21.377692, -25.204054, -7.1013427e-2, 1.9375451e-4, 4.9246592e-6, -3.9836572e-8, 0.2935⟩
      (by norm_num [reaction_int2str, hively_coeffs])
      ⟨1 / 2, by norm_num, by norm_num⟩
      ⟨10, by norm_num, by norm_num⟩
    exact ⟨res, hres,
      (hpt 0 (by norm_num)).1 (by norm_num),
      (hpt 1 (by norm_num)).2 (by norm_num),
      (hpt 2 (by norm_num)).1 (by norm_num)⟩
  · obtain ⟨res, hres, hlen, hpt⟩ := reactivity_elementwise_masking.2 [(1 : ℝ) / 10, 10, 200] 1
      ⟨34.3827, 1124656, 1.17302e-9, 1.51361e-2, 7.51886e-2, 4.60643e-3, 1.35000e-2, -1.06750e-4, 0⟩
      (by norm_num [reaction_int2str, bosch_coeffs])
      ⟨1 / 10, by norm_num, by norm_num⟩
      ⟨10, by norm_num, by norm_num⟩
    exact ⟨res, hres,
      (hpt 0 (by norm_num)).1 (by norm_num),
      (hpt 1 (by norm_num)).2 (by norm_num),
      (hpt 2 (by norm_num)).1 (by norm_num)⟩

/-! ### C6 -/

/-- C6: for any NIST dataset of (Z, M) rows, `get_mass_number` rounds
each relative atomic mass to the nearest integer (no integer is closer
than `np_around M` - in particular neither floor nor ceiling is closer)
and `get_binding_energy` with `norm=True` computes
`((A - Z)*m_n + Z*m_p + Z*m_e - M)*amu / A` with `A = np_around(M)`. -/
theorem binding_energy_formula
    (Zs Ms : List ℝ) (i : ℕ) (hM : i < Ms.length) (hZ : i < Zs.length) :
    get_mass_number (Sum.inr ⟨Zs, Ms⟩) = some (Ms.map (fun m => ((np_around m : ℤ) : ℝ))) ∧
    (∀ z : ℤ, |Ms[i] - ((np_around Ms[i] : ℤ) : ℝ)| ≤ |Ms[i] - (z : ℝ)|) ∧
    ∃ be, get_binding_energy (Sum.inr ⟨Zs, Ms⟩) true = some be ∧
      be[i]? = some (((((np_around Ms[i] : ℤ) : ℝ) - Zs[i]) * 1.00866491588 +
        Zs[i] * 1.00727646688 + Zs[i] * 0.00054858 - Ms[i]) * 931.494095 /
        ((np_around Ms[i] : ℤ) : ℝ)) := by
  refine ⟨rfl, fun z => np_around_nearest Ms[i] z, ?_⟩
  unfold get_binding_energy
  refine ⟨_, rfl, ?_⟩
  rw [List.getElem?_zipWith]
  rw [List.getElem?_eq_getElem hM, List.getElem?_eq_getElem hZ]
  rfl

/-- Witness for C6 on the Helium-4 row Z = 2, M = 4.002602. -/
theorem binding_energy_formula_witness :
    ∃ be, get_binding_energy (Sum.inr ⟨[(2 : ℝ)], [(4.002602 : ℝ)]⟩) true = some be ∧
      be[0]? = some (((((np_around (4.002602 : ℝ) : ℤ) : ℝ) - 2) * 1.00866491588 +
        2 * 1.00727646688 + 2 * 0.00054858 - 4.002602) * 931.494095 /
        ((np_around (4.002602 : ℝ) : ℤ) : ℝ)) :=
  (binding_energy_formula [(2 : ℝ)] [(4.002602 : ℝ)] 0 (by norm_num) (by norm_num)).2.2

/-! ### C7 -/

/-- C7: every sampled point of the X-mode right-hand cut-off curve
satisfies Y = 1 - X, every sampled point of the left-hand cut-off curve
has X >= 1 and satisfies Y = X - 1 (provided the axis range reaches
X = 1), and both cut-off functions meet the O-mode cut-off line X = 1
at exactly Y = 0. -/
theorem cma_cutoff_curves :
    (∀ x0 x1 : ℝ, ∀ p ∈ oplot_XRcut_curve x0 x1, p.2 = 1 - p.1) ∧
    (∀ x0 x1 : ℝ, 1 ≤ max x0 x1 → ∀ p ∈ oplot_XLcut_curve x0 x1, 1 ≤ p.1 ∧ p.2 = p.1 - 1) ∧
    oplot_XRcut_y 1 = 0 ∧ oplot_XLcut_y 1 = 0 := by
  refine ⟨?_, ?_, ?_, ?_⟩
  · intro x0 x1 p hp
    obtain ⟨x, _, rfl⟩ := List.mem_map.mp hp
    rfl
  · intro x0 x1 hmax p hp
    obtain ⟨x, hx, rfl⟩ := List.mem_map.mp hp
    unfold np_linspace at hx
    obtain ⟨i, _, rfl⟩ := List.mem_map.mp hx
    constructor
    · have h199 : (0 : ℝ) ≤ (max x0 x1 - 1) * i / ((200 : ℝ) - 1) := by
        have hi : (0 : ℝ) ≤ (i : ℝ) := Nat.cast_nonneg i
        have hs : (0 : ℝ) ≤ max x0 x1 - 1 := by linarith
        positivity
      simp only
      linarith
    · simp only
      ring
  · norm_num [oplot_XRcut_y]
  · norm_num [oplot_XLcut_y]

/-- Witness for C7: the first sample of the left-hand cut-off curve on
the axis range [0, 3] is the intersection point (1, 0). -/
theorem cma_cutoff_curves_witness :
    1 ≤ ((1 : ℝ), (0 : ℝ)).1 ∧ ((1 : ℝ), (0 : ℝ)).2 = ((1 : ℝ), (0 : ℝ)).1 - 1 := by
  apply cma_cutoff_curves.2.1 0 3 (by norm_num)
  simp only [oplot_XLcut_curve, np_linspace, List.mem_map, List.mem_range]
  exact ⟨1 + (max (0 : ℝ) 3 - 1) * ((0 : ℕ) : ℝ) / ((200 : ℝ) - 1),
    ⟨0, by norm_num, by norm_num⟩, by norm_num⟩

/-! ### C9 -/

/-- C9: every grid point of the Debye-length and plasma-parameter
contour grids with `T >= calc_Trel`, or `T <= calc_Tdeg(n)`, or
`T <= calc_Tnonideal(n)` is set to NaN before plotting, and every other
grid point keeps its computed `calc_debye` / `calc_ND` value. -/
theorem plasma_grid_masking
    (T_vals n_vals : List ℝ) (j i : ℕ) (hj : j < T_vals.length) (hi : i < n_vals.length) :
    (∃ row, (make_lambda_D_grid T_vals n_vals)[j]? = some row ∧
       row[i]? = some (if calc_Trel ≤ T_vals[j] ∨ T_vals[j] ≤ calc_Tdeg n_vals[i] ∨
           T_vals[j] ≤ calc_Tnonideal n_vals[i]
         then none else some (calc_debye n_vals[i] T_vals[j] "eV"))) ∧
    (∃ row, (make_N_D_grid T_vals n_vals)[j]? = some row ∧
       row[i]? = some (if calc_Trel ≤ T_vals[j] ∨ T_vals[j] ≤ calc_Tdeg n_vals[i] ∨
           T_vals[j] ≤ calc_Tnonideal n_vals[i]
         then none else some (calc_ND n_vals[i] T_vals[j] "eV"))) := by
  constructor
  · refine ⟨n_vals.map (fun n =>
        if calc_Trel ≤ T_vals[j] ∨ T_vals[j] ≤ calc_Tdeg n ∨ T_vals[j] ≤ calc_Tnonideal n then none
        else some (calc_debye n T_vals[j] "eV")), ?_, ?_⟩
    · unfold make_lambda_D_grid
      rw [List.getElem?_map, List.getElem?_eq_getElem hj]
      rfl
    · rw [List.getElem?_map, List.getElem?_eq_getElem hi]
      rfl
  · refine ⟨n_vals.map (fun n =>
        if calc_Trel ≤ T_vals[j] ∨ T_vals[j] ≤ calc_Tdeg n ∨ T_vals[j] ≤ calc_Tnonideal n then none
        else some (calc_ND n T_vals[j] "eV")), ?_, ?_⟩
    · unfold make_N_D_grid
      rw [List.getElem?_map, List.getElem?_eq_getElem hj]
      rfl
    · rw [List.getElem?_map, List.getElem?_eq_getElem hi]
      rfl

/-- Witness for C9 at the single grid point n = 1e20 m^-3, T = 1e6 eV. -/
theorem plasma_grid_masking_witness :
    (∃ row, (make_lambda_D_grid [(1e6 : ℝ)] [(1e20 : ℝ)])[0]? = some row ∧
       row[0]? = some (if calc_Trel ≤ (1e6 : ℝ) ∨ (1e6 : ℝ) ≤ calc_Tdeg (1e20 : ℝ) ∨
           (1e6 : ℝ) ≤ calc_Tnonideal (1e20 : ℝ)
         then none else some (calc_debye (1e20 : ℝ) (1e6 : ℝ) "eV"))) ∧
    (∃ row, (make_N_D_grid [(1e6 : ℝ)] [(1e20 : ℝ)])[0]? = some row ∧
       row[0]? = some (if calc_Trel ≤ (1e6 : ℝ) ∨ (1e6 : ℝ) ≤ calc_Tdeg (1e20 : ℝ) ∨
           (1e6 : ℝ) ≤ calc_Tnonideal (1e20 : ℝ)
         then none else some (calc_ND (1e20 : ℝ) (1e6 : ℝ) "eV"))) :=
  plasma_grid_masking [(1e6 : ℝ)] [(1e20 : ℝ)] 0 0 (by norm_num) (by norm_num)

/-! ### C10 -/

/-- C10: for R0 >= a > 0 every point of the field-line helix (any
toroidal angle, any safety factor q /= 0) and every point of the torus
coordinate grid satisfies `(sqrt(x^2 + y^2) - R0)^2 + z^2 = a^2`. -/
theorem fieldline_on_torus
    (R0 a q : ℝ) (ha : 0 < a) (hRa : a ≤ R0) (_hq : q ≠ 0)
    (phi theta : List ℝ) :
    (∀ p ∈ toroidal_helix R0 a phi q, on_torus_surface R0 a p) ∧
    (∀ row ∈ make_torus_coordinates R0 a theta phi, ∀ p ∈ row, on_torus_surface R0 a p) := by
  constructor
  · intro p hp
    obtain ⟨f, _, rfl⟩ := List.mem_map.mp hp
    show on_torus_surface R0 a
      ((R0 - a * Real.cos (1 / q * f)) * Real.cos f,
       (R0 - a * Real.cos (1 / q * f)) * Real.sin f,
       a * Real.sin (1 / q * f))
    apply on_torus_of_eq R0 a (-Real.cos (1 / q * f)) (Real.sin (1 / q * f)) f
    · rw [neg_pow]
      simp only [neg_neg, pow_succ, pow_zero, one_mul]
      nlinarith [Real.cos_sq_add_sin_sq (1 / q * f)]
    · nlinarith [Real.cos_le_one (1 / q * f), Real.neg_one_le_cos (1 / q * f),
        mul_le_mul_of_nonneg_left (Real.cos_le_one (1 / q * f)) ha.le]
    · ring
    · ring
    · ring
  · intro row hrow p hp
    obtain ⟨f, _, rfl⟩ := List.mem_map.mp hrow
    obtain ⟨t, _, rfl⟩ := List.mem_map.mp hp
    show on_torus_surface R0 a
      ((R0 + a * Real.cos t) * Real.cos f,
       (R0 + a * Real.cos t) * Real.sin f,
       a * Real.sin t)
    apply on_torus_of_eq R0 a (Real.cos t) (Real.sin t) f
    · exact Real.cos_sq_add_sin_sq t
    · nlinarith [Real.neg_one_le_cos t, mul_le_mul_of_nonneg_left (Real.neg_one_le_cos t) ha.le]
    · ring
    · ring
    · ring

/-- Witness for C10 on the default tokamak geometry R0 = 3, a = 1,
q = 2, with one helix sample and one torus sample at angle 0. -/
theorem fieldline_on_torus_witness :
    on_torus_surface 3 1 (toroidal_helix_point 3 1 2 0) ∧
    on_torus_surface 3 1 (torus_point 3 1 0 0) :=
  ⟨(fieldline_on_torus 3 1 2 (by norm_num) (by norm_num) (by norm_num) [0] [0]).1
     (toroidal_helix_point 3 1 2 0) (by simp [toroidal_helix]),
   (fieldline_on_torus 3 1 2 (by norm_num) (by norm_num) (by norm_num) [0] [0]).2
     ([0].map (fun t => torus_point 3 1 t 0)) (by simp [make_torus_coordinates])
     (torus_point 3 1 0 0) (by simp)⟩
